import Mathlib

/-!
Verification of the quality-gate workflow in
`src/scripts/todo_sniff_integration.py` (class `SniffTodoWorkflow`).

Shallow embedding: Python dicts for analysis reports and TODO records become
structures whose optional keys are `Option` fields (`Dict.get key default`
becomes `Option.getD`); JSON numbers are modelled as rationals (ordering on
rationals agrees with Python's numeric ordering on int/float values); the
external `sniff` subprocess and `json.loads` are parameters of the adapter;
the branch taken by each function (observable in the source as the distinct
message it prints) is returned as an explicit reason/outcome value.
-/

/-- The analysis result dict consumed by `verify_quality_gate`.
`hasError` models the presence of the `"error"` key (`"error" in
analysis_result`, line 35); the remaining fields model the keys read with
`.get(_, 0)` defaults (lines 39-41), `none` meaning the key is absent. -/
structure AnalysisResult where
  hasError : Bool
  errorMsg : Option String
  total_detections : Option ℚ
  critical_issues : Option ℚ
  average_quality_score : Option ℚ
deriving DecidableEq

/-- A TODO record as used by the script (see the example dicts, lines
131-150).  `min_quality_score`, `max_critical_issues` and `sniff_verified`
are read with `.get`, so absence is representable; `files` is read with
`.get("files", [])`, so an absent key and an empty list coincide. -/
structure Todo where
  id : String
  content : String
  status : String
  priority : String
  files : List String
  min_quality_score : Option ℚ
  max_critical_issues : Option ℚ
  sniff_verified : Option Bool
deriving DecidableEq

/-- Which branch of `verify_quality_gate` produced the decision (each branch
prints a distinct message in the source, lines 36/48/52/55). -/
inductive GateReason
  | error
  | criticalIssuesExceeded
  | qualityBelowThreshold
  | passed
deriving DecidableEq

/-- The gate decision: the returned bool plus the branch that produced it. -/
structure GateResult where
  passed : Bool
  reason : GateReason
deriving DecidableEq

/-- `SniffTodoWorkflow.verify_quality_gate` (lines 33-56): fail on an errored
report; else fail when `critical_issues > max_critical`; else fail when
`avg_quality < min_quality`; else pass.  Thresholds default to 80 and 0 via
`todo.get` (lines 44-45); report counts default to 0 (lines 40-41). -/
def verify_quality_gate (analysis_result : AnalysisResult) (todo : Todo) :
    GateResult :=
  if analysis_result.hasError then
    { passed := false, reason := GateReason.error }
  else
    let critical_issues : ℚ := analysis_result.critical_issues.getD 0
    let avg_quality : ℚ := analysis_result.average_quality_score.getD 0
    let min_quality : ℚ := todo.min_quality_score.getD 80
    let max_critical : ℚ := todo.max_critical_issues.getD 0
    if critical_issues > max_critical then
      { passed := false, reason := GateReason.criticalIssuesExceeded }
    else if avg_quality < min_quality then
      { passed := false, reason := GateReason.qualityBelowThreshold }
    else
      { passed := true, reason := GateReason.passed }

/-- The spec's Gate Evaluator `evaluate(report, thresholds)` (spec section
4.2), stated over an explicit thresholds pair; used to compare the source's
defaulting of unset task thresholds against the spec's words. -/
def evaluate_thresholds (report : AnalysisResult)
    (min_quality_score max_critical_issues : ℚ) : GateResult :=
  if report.hasError then
    { passed := false, reason := GateReason.error }
  else if report.critical_issues.getD 0 > max_critical_issues then
    { passed := false, reason := GateReason.criticalIssuesExceeded }
  else if report.average_quality_score.getD 0 < min_quality_score then
    { passed := false, reason := GateReason.qualityBelowThreshold }
  else
    { passed := true, reason := GateReason.passed }

/-- C1: for every analysis report whose error indicator is set,
`verify_quality_gate` returns `passed = false` with reason `Error`,
regardless of the report's counts, score and the task's thresholds. -/
theorem errored_report_fails (a : AnalysisResult) (t : Todo)
    (h : a.hasError = true) :
    verify_quality_gate a t = { passed := false, reason := GateReason.error } := by
  simp [verify_quality_gate, h]

/-- Witness for C1 at a concrete errored report whose score is 100 and whose
critical count is 0, against permissive thresholds. -/
theorem errored_report_fails_witness :
    verify_quality_gate
      { hasError := true, errorMsg := some "boom", total_detections := some 0,
        critical_issues := some 0, average_quality_score := some 100 }
      { id := "t1", content := "c", status := "in-progress", priority := "high",
        files := ["a.rs"], min_quality_score := some 0,
        max_critical_issues := some 9, sniff_verified := none } =
      { passed := false, reason := GateReason.error } :=
  errored_report_fails _ _ rfl

/-- C2: for every non-errored report whose critical-issue count exceeds the
task's limit, `verify_quality_gate` fails with reason
`CriticalIssuesExceeded`, whatever the average quality score: the critical
check is decided before the quality check, so a report violating both
thresholds reports `CriticalIssuesExceeded`, never `QualityBelowThreshold`. -/
theorem critical_exceeded_fails (a : AnalysisResult) (t : Todo)
    (he : a.hasError = false)
    (hc : a.critical_issues.getD 0 > t.max_critical_issues.getD 0) :
    verify_quality_gate a t =
      { passed := false, reason := GateReason.criticalIssuesExceeded } := by
  simp [verify_quality_gate, he, hc]

/-- Witness for C2: a report with one critical issue and a score of 50 that
violates both the critical limit 0 and the quality threshold 80 reports
`CriticalIssuesExceeded`; a second instance with score 100 fails too. -/
theorem critical_exceeded_fails_witness :
    verify_quality_gate
      { hasError := false, errorMsg := none, total_detections := some 3,
        critical_issues := some 1, average_quality_score := some 50 }
      { id := "t1", content := "c", status := "in-progress", priority := "high",
        files := ["a.rs"], min_quality_score := some 80,
        max_critical_issues := some 0, sniff_verified := none } =
      { passed := false, reason := GateReason.criticalIssuesExceeded } ∧
    verify_quality_gate
      { hasError := false, errorMsg := none, total_detections := some 1,
        critical_issues := some 1, average_quality_score := some 100 }
      { id := "t1", content := "c", status := "in-progress", priority := "high",
        files := ["a.rs"], min_quality_score := some 80,
        max_critical_issues := some 0, sniff_verified := none } =
      { passed := false, reason := GateReason.criticalIssuesExceeded } :=
  ⟨critical_exceeded_fails _ _ rfl (by norm_num),
   critical_exceeded_fails _ _ rfl (by norm_num)⟩

/-- C3: for every non-errored report within the critical-issue limit, the
gate fails with reason `QualityBelowThreshold` exactly when the average
quality score is strictly below the task's minimum, and passes otherwise;
in particular equality on either threshold is a pass. -/
theorem quality_threshold_decides (a : AnalysisResult) (t : Todo)
    (he : a.hasError = false)
    (hc : a.critical_issues.getD 0 ≤ t.max_critical_issues.getD 0) :
    (a.average_quality_score.getD 0 < t.min_quality_score.getD 80 →
      verify_quality_gate a t =
        { passed := false, reason := GateReason.qualityBelowThreshold }) ∧
    (t.min_quality_score.getD 80 ≤ a.average_quality_score.getD 0 →
      verify_quality_gate a t = { passed := true, reason := GateReason.passed }) := by
  constructor
  · intro hq
    simp [verify_quality_gate, he, not_lt.mpr hc, hq]
  · intro hq
    simp [verify_quality_gate, he, not_lt.mpr hc, not_lt.mpr hq]

/-- Witness for C3 at both thresholds met with equality: critical count 1
equals the limit 1 and score 80 equals the minimum 80, so the gate passes;
and at score 79 just below the threshold, it fails with
`QualityBelowThreshold`. -/
theorem quality_threshold_decides_witness :
    verify_quality_gate
      { hasError := false, errorMsg := none, total_detections := some 2,
        critical_issues := some 1, average_quality_score := some 80 }
      { id := "t2", content := "c", status := "in-progress", priority := "low",
        files := ["b.rs"], min_quality_score := some 80,
        max_critical_issues := some 1, sniff_verified := none } =
      { passed := true, reason := GateReason.passed } ∧
    verify_quality_gate
      { hasError := false, errorMsg := none, total_detections := some 2,
        critical_issues := some 1, average_quality_score := some 79 }
      { id := "t2", content := "c", status := "in-progress", priority := "low",
        files := ["b.rs"], min_quality_score := some 80,
        max_critical_issues := some 1, sniff_verified := none } =
      { passed := false, reason := GateReason.qualityBelowThreshold } :=
  ⟨(quality_threshold_decides _ _ rfl (by norm_num)).2 (by norm_num),
   (quality_threshold_decides _ _ rfl (by norm_num)).1 (by norm_num)⟩

/-- C9: the gate evaluates a task with unset `min_quality_score` against the
default 80, a task with unset `max_critical_issues` against the default 0,
and a task with both set against the given values — i.e. it agrees with the
spec's explicit-thresholds evaluator at the defaulted values. -/
theorem default_thresholds (a : AnalysisResult) (t : Todo) :
    (t.min_quality_score = none →
      verify_quality_gate a t =
        evaluate_thresholds a 80 (t.max_critical_issues.getD 0)) ∧
    (t.max_critical_issues = none →
      verify_quality_gate a t =
        evaluate_thresholds a (t.min_quality_score.getD 80) 0) ∧
    (∀ mq mc : ℚ, t.min_quality_score = some mq →
      t.max_critical_issues = some mc →
      verify_quality_gate a t = evaluate_thresholds a mq mc) := by
  refine ⟨fun h => ?_, fun h => ?_, fun mq mc hq hc => ?_⟩
  · simp [verify_quality_gate, evaluate_thresholds, h]
  · simp [verify_quality_gate, evaluate_thresholds, h]
  · simp [verify_quality_gate, evaluate_thresholds, hq, hc]

/-- Witness for C9: a task with both thresholds unset is gated exactly as
the spec's evaluator with thresholds (80, 0), shown at a report scoring 80
with no critical issues. -/
theorem default_thresholds_witness :
    verify_quality_gate
      { hasError := false, errorMsg := none, total_detections := some 0,
        critical_issues := some 0, average_quality_score := some 80 }
      { id := "t3", content := "c", status := "in-progress", priority := "low",
        files := ["c.rs"], min_quality_score := none,
        max_critical_issues := none, sniff_verified := none } =
      evaluate_thresholds
        { hasError := false, errorMsg := none, total_detections := some 0,
          critical_issues := some 0, average_quality_score := some 80 }
        80 0 :=
  (default_thresholds _ _).1 rfl

/-- Outcome of `subprocess.run(cmd, capture_output=True, text=True,
check=True)` (line 27): with `check=True` a non-zero exit raises
`CalledProcessError`; otherwise the call completes with the captured
stdout.  (No `timeout` argument is passed, so `TimeoutExpired` cannot
arise; a hang simply blocks.) -/
inductive SubprocessOutcome
  | calledProcessError (msg : String)
  | completed (stdout : String)
deriving DecidableEq

/-- A Python exception escaping `run_sniff_analysis` to its caller. -/
inductive PyException
  | jsonDecodeError
deriving DecidableEq

/-- The dict `{"error": str(e)}` returned on a caught invocation failure
(line 31): only the `"error"` key is present. -/
def errorReport (msg : String) : AnalysisResult :=
  { hasError := true, errorMsg := some msg, total_detections := none,
    critical_issues := none, average_quality_score := none }

/-- `SniffTodoWorkflow.run_sniff_analysis` (lines 17-31).  The external
world is passed in: `runProcess` is the behaviour of the `sniff` subprocess
on the given file list, and `jsonLoads` is `json.loads` on a stdout string
(`none` modelling a raised `JSONDecodeError`).  The source's `try` block
spans both the subprocess call and the parse, but its `except` clause
catches only `subprocess.CalledProcessError`, so a parse failure escapes as
an exception (`Except.error`). -/
def run_sniff_analysis (runProcess : List String → SubprocessOutcome)
    (jsonLoads : String → Option AnalysisResult) (files : List String) :
    Except PyException AnalysisResult :=
  match runProcess files with
  | SubprocessOutcome.calledProcessError msg => Except.ok (errorReport msg)
  | SubprocessOutcome.completed stdout =>
    match jsonLoads stdout with
    | some result => Except.ok result
    | none => Except.error PyException.jsonDecodeError

/-- C4 (failing input): when the `sniff` process exits 0 but its stdout is
not valid JSON, `run_sniff_analysis` does not return an errored report: the
`JSONDecodeError` raised by `json.loads` propagates to the caller, because
the `except` clause (line 29) catches only `CalledProcessError`.  This
contradicts the spec's guarantee that malformed analyzer output is captured
as an errored report and never propagated.  (A non-zero exit is captured as
`{"error": msg}`, shown alongside.) -/
theorem malformed_output_propagates :
    run_sniff_analysis (fun _ => SubprocessOutcome.completed "not json")
      (fun _ => none) ["src/auth.rs"] =
      Except.error PyException.jsonDecodeError ∧
    run_sniff_analysis (fun _ => SubprocessOutcome.calledProcessError "exit 1")
      (fun _ => none) ["src/auth.rs"] =
      Except.ok (errorReport "exit 1") :=
  ⟨rfl, rfl⟩

/-- Which path `complete_todo_with_verification` took (each path prints a
distinct message in the source, lines 97/105/117/122). -/
inductive CompleteOutcome
  | notFound
  | completedNoFiles
  | completedVerified
  | needsRevision
deriving DecidableEq

/-- Result of a completion attempt: the (in-place updated) TODO list, the
file lists passed to `run_sniff_analysis` (so its length is the number of
analyzer invocations), and the path taken. -/
structure CompleteResult where
  todos : List Todo
  analyzerCalls : List (List String)
  outcome : CompleteOutcome
deriving DecidableEq

/-- Body of `complete_todo_with_verification` once the TODO is found (lines
100-124): complete directly when `files` is empty; otherwise run the
analysis and either complete with `sniff_verified = True` or mark
`needs-revision` (leaving every other field, `sniff_verified` included,
untouched). -/
def completeFound (analyze : List String → AnalysisResult) (todo : Todo) :
    Todo × List (List String) × CompleteOutcome :=
  if todo.files = [] then
    ({ todo with status := "completed" }, [], CompleteOutcome.completedNoFiles)
  else
    let analysis := analyze todo.files
    if (verify_quality_gate analysis todo).passed then
      ({ todo with status := "completed", sniff_verified := some true },
        [todo.files], CompleteOutcome.completedVerified)
    else
      ({ todo with status := "needs-revision" },
        [todo.files], CompleteOutcome.needsRevision)

/-- `SniffTodoWorkflow.complete_todo_with_verification` (lines 86-124): find
the first TODO whose `id` matches (lines 90-94), return the list unchanged
when none does (lines 96-98), otherwise update that TODO in place.  The
analyzer behaviour is passed in as `analyze` (the parsed output of
`run_sniff_analysis`, assumed here not to raise — raising is C4's concern). -/
def complete_todo_with_verification (analyze : List String → AnalysisResult)
    (todo_id : String) : List Todo → CompleteResult
  | [] => { todos := [], analyzerCalls := [], outcome := CompleteOutcome.notFound }
  | t :: rest =>
    if t.id = todo_id then
      let r := completeFound analyze t
      { todos := r.1 :: rest, analyzerCalls := r.2.1, outcome := r.2.2 }
    else
      let r := complete_todo_with_verification analyze todo_id rest
      { todos := t :: r.todos, analyzerCalls := r.analyzerCalls,
        outcome := r.outcome }

/-- Finding the first match: when every TODO before `t` has a different id
and `t` matches, the call rewrites to `completeFound` on `t`. -/
theorem complete_todo_append (analyze : List String → AnalysisResult)
    (todo_id : String) (pre post : List Todo) (t : Todo)
    (hpre : ∀ u ∈ pre, u.id ≠ todo_id) (ht : t.id = todo_id) :
    complete_todo_with_verification analyze todo_id (pre ++ t :: post) =
      { todos := pre ++ (completeFound analyze t).1 :: post,
        analyzerCalls := (completeFound analyze t).2.1,
        outcome := (completeFound analyze t).2.2 } := by
  induction pre with
  | nil => simp [complete_todo_with_verification, ht]
  | cons u us ih =>
    have hu : u.id ≠ todo_id := hpre u (by simp)
    have ih2 := ih (fun v hv => hpre v (by simp [hv]))
    simp [complete_todo_with_verification, hu, ih2]

/-- C5: when the first TODO matching the requested id has a non-empty file
list, the call runs one analysis on those files and either (gate passed)
sets its status to `completed` with `sniff_verified = True`, or (gate not
passed) sets its status to `needs-revision`, leaving `sniff_verified` and
every other field exactly as they were — no failure detail is stored on the
TODO. -/
theorem verified_completion (analyze : List String → AnalysisResult)
    (todo_id : String) (pre post : List Todo) (t : Todo)
    (hpre : ∀ u ∈ pre, u.id ≠ todo_id) (ht : t.id = todo_id)
    (hf : t.files ≠ []) :
    ((verify_quality_gate (analyze t.files) t).passed = true →
      complete_todo_with_verification analyze todo_id (pre ++ t :: post) =
        { todos :=
            pre ++ { t with status := "completed",
                            sniff_verified := some true } :: post,
          analyzerCalls := [t.files],
          outcome := CompleteOutcome.completedVerified }) ∧
    ((verify_quality_gate (analyze t.files) t).passed = false →
      complete_todo_with_verification analyze todo_id (pre ++ t :: post) =
        { todos := pre ++ { t with status := "needs-revision" } :: post,
          analyzerCalls := [t.files],
          outcome := CompleteOutcome.needsRevision }) := by
  have key := complete_todo_append analyze todo_id pre post t hpre ht
  constructor
  · intro hp
    rw [key]
    simp [completeFound, hf, hp]
  · intro hp
    rw [key]
    simp [completeFound, hf, hp]

/-- A report that passes the default thresholds (no critical issues, score
90). -/
def reportPass : AnalysisResult :=
  { hasError := false, errorMsg := none, total_detections := some 0,
    critical_issues := some 0, average_quality_score := some 90 }

/-- A report that fails the default quality threshold (score 70). -/
def reportLow : AnalysisResult :=
  { hasError := false, errorMsg := none, total_detections := some 4,
    critical_issues := some 0, average_quality_score := some 70 }

/-- An in-progress TODO with one tracked file and default-shaped
thresholds. -/
def todoT1 : Todo :=
  { id := "t1", content := "implement auth", status := "in-progress",
    priority := "high", files := ["a.rs"], min_quality_score := some 80,
    max_critical_issues := some 0, sniff_verified := none }

/-- Witness for C5 on `todoT1`: a passing report completes it verified, a
low-scoring report sends it to revision with `sniff_verified` untouched. -/
theorem verified_completion_witness :
    complete_todo_with_verification (fun _ => reportPass) "t1" [todoT1] =
      { todos := [{ todoT1 with status := "completed",
                                sniff_verified := some true }],
        analyzerCalls := [["a.rs"]],
        outcome := CompleteOutcome.completedVerified } ∧
    complete_todo_with_verification (fun _ => reportLow) "t1" [todoT1] =
      { todos := [{ todoT1 with status := "needs-revision" }],
        analyzerCalls := [["a.rs"]],
        outcome := CompleteOutcome.needsRevision } := by
  constructor
  · have h := (verified_completion (fun _ => reportPass) "t1" [] [] todoT1
      (by simp) rfl (by decide)).1 (by decide)
    simpa using h
  · have h := (verified_completion (fun _ => reportLow) "t1" [] [] todoT1
      (by simp) rfl (by decide)).2 (by decide)
    simpa using h

/-- C6: when the first TODO matching the requested id has an empty file
list, the call sets its status to `completed` without invoking the analyzer
(zero analyzer calls), and `sniff_verified` (like every other field) is left
as it was — false/absent stays false/absent. -/
theorem empty_files_completes (analyze : List String → AnalysisResult)
    (todo_id : String) (pre post : List Todo) (t : Todo)
    (hpre : ∀ u ∈ pre, u.id ≠ todo_id) (ht : t.id = todo_id)
    (hf : t.files = []) :
    complete_todo_with_verification analyze todo_id (pre ++ t :: post) =
      { todos := pre ++ { t with status := "completed" } :: post,
        analyzerCalls := [],
        outcome := CompleteOutcome.completedNoFiles } := by
  rw [complete_todo_append analyze todo_id pre post t hpre ht]
  simp [completeFound, hf]

/-- A TODO with no tracked files. -/
def todoNoFiles : Todo :=
  { id := "t4", content := "update docs", status := "in-progress",
    priority := "low", files := [], min_quality_score := none,
    max_critical_issues := none, sniff_verified := none }

/-- Witness for C6 on `todoNoFiles`: completed directly, zero analyzer
calls, `sniff_verified` still absent. -/
theorem empty_files_completes_witness :
    complete_todo_with_verification (fun _ => reportLow) "t4"
        ([todoT1] ++ todoNoFiles :: []) =
      { todos := [todoT1] ++ { todoNoFiles with status := "completed" } :: [],
        analyzerCalls := [],
        outcome := CompleteOutcome.completedNoFiles } :=
  empty_files_completes (fun _ => reportLow) "t4" [todoT1] [] todoNoFiles
    (by decide) rfl rfl

/-- C7: when no TODO in the list has the requested id, the call reports
`NotFound`, makes no analyzer call, and returns the list unchanged — no
field of any TODO is mutated. -/
theorem not_found_unchanged (analyze : List String → AnalysisResult)
    (todo_id : String) (todos : List Todo)
    (h : ∀ t ∈ todos, t.id ≠ todo_id) :
    complete_todo_with_verification analyze todo_id todos =
      { todos := todos, analyzerCalls := [],
        outcome := CompleteOutcome.notFound } := by
  induction todos with
  | nil => rfl
  | cons t rest ih =>
    have ht : t.id ≠ todo_id := h t (by simp)
    have ih2 := ih (fun u hu => h u (by simp [hu]))
    simp [complete_todo_with_verification, ht, ih2]

/-- Witness for C7: asking for the unknown id `missing` leaves the registry
`[todoT1, todoNoFiles]` exactly as given. -/
theorem not_found_unchanged_witness :
    complete_todo_with_verification (fun _ => reportPass) "missing"
        [todoT1, todoNoFiles] =
      { todos := [todoT1, todoNoFiles], analyzerCalls := [],
        outcome := CompleteOutcome.notFound } :=
  not_found_unchanged (fun _ => reportPass) "missing" [todoT1, todoNoFiles]
    (by decide)

/-- `completeFound` on an empty file list (lines 102-106). -/
theorem completeFound_empty (analyze : List String → AnalysisResult)
    (t : Todo) (hf : t.files = []) :
    completeFound analyze t =
      ({ t with status := "completed" }, [], CompleteOutcome.completedNoFiles) := by
  simp [completeFound, hf]

/-- `completeFound` on a passing gate (lines 113-117). -/
theorem completeFound_pass (analyze : List String → AnalysisResult)
    (t : Todo) (hf : t.files ≠ [])
    (hp : (verify_quality_gate (analyze t.files) t).passed = true) :
    completeFound analyze t =
      ({ t with status := "completed", sniff_verified := some true },
        [t.files], CompleteOutcome.completedVerified) := by
  simp [completeFound, hf, hp]

/-- `completeFound` on a failing gate (lines 118-122). -/
theorem completeFound_fail (analyze : List String → AnalysisResult)
    (t : Todo) (hf : t.files ≠ [])
    (hp : (verify_quality_gate (analyze t.files) t).passed = false) :
    completeFound analyze t =
      ({ t with status := "needs-revision" },
        [t.files], CompleteOutcome.needsRevision) := by
  simp [completeFound, hf, hp]

/-- A gate result that is not `true` is `false`. -/
theorem passed_eq_false {g : GateResult} (h : ¬ g.passed = true) :
    g.passed = false := by
  cases hg : g.passed
  · rfl
  · exact absurd hg h

/-- `todoT1` after a successful verified completion: status `completed`,
`sniff_verified = True` — a state that satisfies the spec's `sniff_verified`
invariant (its gate passed when it was verified). -/
def todoVerified : Todo :=
  { todoT1 with status := "completed", sniff_verified := some true }

/-- C8 (failing input): the spec's invariant "`sniff_verified` is true only
if status is `completed` (and the files passed the gate)" is broken by the
code on retry.  First conjunct: the state `todoVerified` (completed,
`sniff_verified = True`) is reachable — a passing run on `todoT1` produces
exactly it.  Second conjunct: re-gating that task when the analysis now
scores 70 (below its threshold 80) ends it in `needs-revision` with
`sniff_verified` untouched, because the failure branch (line 121) sets only
`status` and never clears the flag.  Last conjuncts: the resulting task has
`sniff_verified = True` while its status is not `completed` — a
`needs-revision` task with `sniff_verified` true, which the claim says can
never exist. -/
theorem verified_flag_survives_revision :
    (complete_todo_with_verification (fun _ => reportPass) "t1"
        [todoT1]).todos = [todoVerified] ∧
    (complete_todo_with_verification (fun _ => reportLow) "t1"
        [todoVerified]).todos =
      [{ todoVerified with status := "needs-revision" }] ∧
    ({ todoVerified with status := "needs-revision" }).sniff_verified =
      some true ∧
    ({ todoVerified with status := "needs-revision" }).status ≠ "completed" := by
  refine ⟨by decide, by decide, rfl, by decide⟩

/-- The frame relation for C10: the updated TODO agrees with the original on
`id`, `content`, `priority`, `files` and both thresholds (only `status` and
`sniff_verified` may change), and a TODO whose id is not the requested one
is not changed at all. -/
def frame_ok (todo_id : String) (t t' : Todo) : Prop :=
  t'.id = t.id ∧ t'.content = t.content ∧ t'.priority = t.priority ∧
    t'.files = t.files ∧ t'.min_quality_score = t.min_quality_score ∧
    t'.max_critical_issues = t.max_critical_issues ∧
    (t.id ≠ todo_id → t' = t)

/-- Every TODO is frame-related to itself. -/
theorem frame_ok_refl (todo_id : String) (t : Todo) : frame_ok todo_id t t :=
  ⟨rfl, rfl, rfl, rfl, rfl, rfl, fun _ => rfl⟩

/-- `completeFound` only touches `status` and `sniff_verified`. -/
theorem completeFound_frame (analyze : List String → AnalysisResult)
    (todo_id : String) (t : Todo) (hid : t.id = todo_id) :
    frame_ok todo_id t (completeFound analyze t).1 := by
  by_cases hf : t.files = []
  · rw [completeFound_empty analyze t hf]
    exact ⟨rfl, rfl, rfl, rfl, rfl, rfl, fun hne => absurd hid hne⟩
  · by_cases hp : (verify_quality_gate (analyze t.files) t).passed = true
    · rw [completeFound_pass analyze t hf hp]
      exact ⟨rfl, rfl, rfl, rfl, rfl, rfl, fun hne => absurd hid hne⟩
    · rw [completeFound_fail analyze t hf (passed_eq_false hp)]
      exact ⟨rfl, rfl, rfl, rfl, rfl, rfl, fun hne => absurd hid hne⟩

/-- C10: `complete_todo_with_verification` returns the given list updated in
place: the result is pointwise frame-related to the input (same length, and
each TODO keeps its `id`, `content`, `priority`, `files` and thresholds —
at most `status` and `sniff_verified` change), and every TODO whose id
differs from the requested one is returned exactly as given. -/
theorem frame_effect (analyze : List String → AnalysisResult)
    (todo_id : String) (todos : List Todo) :
    List.Forall₂ (frame_ok todo_id) todos
      (complete_todo_with_verification analyze todo_id todos).todos := by
  induction todos with
  | nil => simp [complete_todo_with_verification]
  | cons t rest ih =>
    by_cases hid : t.id = todo_id
    · have hstep :
          (complete_todo_with_verification analyze todo_id (t :: rest)).todos =
            (completeFound analyze t).1 :: rest := by
        simp [complete_todo_with_verification, hid]
      rw [hstep]
      exact List.Forall₂.cons (completeFound_frame analyze todo_id t hid)
        (List.forall₂_same.mpr fun a _ => frame_ok_refl todo_id a)
    · have hstep :
          (complete_todo_with_verification analyze todo_id (t :: rest)).todos =
            t :: (complete_todo_with_verification analyze todo_id rest).todos := by
        simp [complete_todo_with_verification, hid]
      rw [hstep]
      exact List.Forall₂.cons (frame_ok_refl todo_id t) ih

/-- Witness for C10 at a concrete registry and id. -/
theorem frame_effect_witness :
    List.Forall₂ (frame_ok "t1") [todoT1, todoNoFiles]
      (complete_todo_with_verification (fun _ => reportPass) "t1"
        [todoT1, todoNoFiles]).todos :=
  frame_effect (fun _ => reportPass) "t1" [todoT1, todoNoFiles]
